import Mathlib

/-!
Shallow embedding of `src/WebWatchNotify.py` (class `WebsiteFileWatcher`).

The external collaborators (HTTP fetch, the HTML parsing library's node
type, the Telegram transport, the scheduler) are modelled at their
interface: documents are an explicit tree type, network responses are
explicit inputs, and side effects (Telegram sends, prints, cache
mutation) are returned as data.
-/

/-- `StepParams` dataclass: `text` (for `find_text`) and `name`
(for `get_attribute`), both defaulting to the empty string. -/
structure StepParams where
  text : String := ""
  name : String := ""
  deriving DecidableEq, Repr

/-- `Step` dataclass: a method name (a raw string key) plus parameters. -/
structure Step where
  method : String
  params : StepParams
  deriving DecidableEq, Repr

/-- `Config` dataclass: one monitored target, as loaded from JSON. -/
structure Config where
  name : String
  website : String
  steps : List Step
  bot_token : String
  read_bot_token : String
  chat_id : String
  schedule_interval : String
  deriving Repr

mutual
/-- A parsed HTML node: either a `NavigableString` text node or a `Tag`
with a name, attributes and children (the BeautifulSoup tree, reduced to
what the watcher's steps can observe). -/
inductive Node where
  | text (s : String)
  | tag (tagName : String) (attrs : List (String × String)) (children : NodeList)
  deriving DecidableEq

/-- A list of sibling nodes (spelled out so that structural recursion
over the tree stays kernel-reducible). -/
inductive NodeList where
  | nil
  | cons (head : Node) (tail : NodeList)
  deriving DecidableEq
end

/-- Build a `NodeList` from an ordinary list. -/
def nodeListOf : List Node → NodeList
  | [] => .nil
  | n :: ns => .cons n (nodeListOf ns)

/-- Index into a sibling list. -/
def nodeListGet : NodeList → Nat → Option Node
  | .nil, _ => none
  | .cons c _, 0 => some c
  | .cons _ cs, n + 1 => nodeListGet cs n

/-- Drop the first `n` siblings. -/
def nodeListDrop : NodeList → Nat → NodeList
  | l, 0 => l
  | .nil, _ + 1 => .nil
  | .cons _ cs, n + 1 => nodeListDrop cs n

/-- A position in the document: the path of child indices from the root.
The Python code passes around bare library nodes; the path representation
makes the parent and sibling pointers they carry explicit. -/
abbrev Loc := List Nat

/-- Follow a path from a node down the tree. -/
def getNode : Node → Loc → Option Node
  | n, [] => some n
  | .text _, _ :: _ => none
  | .tag _ _ cs, i :: p =>
    match nodeListGet cs i with
    | some c => getNode c p
    | none => none

mutual
/-- `element.find(string=t)` on the subtree rooted at a node whose path is
`base`: the first descendant text node (document order) equal to `t`.
A matching descendant's own path is returned. -/
def findStringSub (t : String) : Node → Loc → Option Loc
  | .text s, base => if s = t then some base else none
  | .tag _ _ cs, base => findStringChildren t cs base 0

/-- Search a child list, the `i`-th child living at `base ++ [i]`. -/
def findStringChildren (t : String) : NodeList → Loc → Nat → Option Loc
  | .nil, _, _ => none
  | .cons c cs, base, i =>
    match findStringSub t c (base ++ [i]) with
    | some p => some p
    | none => findStringChildren t cs base (i + 1)
end

/-- Index (counting from `i`) of the first `Tag` in a sibling list:
`find_next_sibling()` matches element nodes, skipping bare text. -/
def findTagIdxFrom : NodeList → Nat → Option Nat
  | .nil, _ => none
  | .cons (.tag _ _ _) _, i => some i
  | .cons (.text _) cs, i => findTagIdxFrom cs (i + 1)

/-- The running value threaded through `_scrape_website_for_file_url`:
a library node (`soup`), a plain Python string (result of `.get`), or
Python `None`. -/
inductive PyVal where
  | elem (loc : Loc)
  | pstr (s : String)
  | pynone
  deriving DecidableEq, Repr

/-- How `_perform_step` can raise.
`nullNodeTraversal` is the `AttributeError` raised while building the
`step_methods` dict when `element` is `None` (`None.find_parent` — the
dict literal evaluates that attribute access before any dispatch);
`attributeLookup` is the same eager `AttributeError` when `element` is a
plain string; `typeError` is `str.find` rejecting the `string=` keyword
on a `NavigableString`; `invalidStepMethod` is the
`ValueError("Invalid method: ...")` re-raised from the dict `KeyError`. -/
inductive StepError where
  | nullNodeTraversal
  | attributeLookup
  | typeError
  | invalidStepMethod (m : String)
  deriving DecidableEq, Repr

/-- Attribute lookup on a tag (`Tag.get`, `None` default). -/
def attrsLookup : List (String × String) → String → Option String
  | [], _ => none
  | (k, v) :: rest, n => if k = n then some v else attrsLookup rest n

/-- `find_next_sibling()` at a path: the next element-node sibling after
the current index, `None` at the root or when no such sibling exists. -/
def nextSiblingVal (doc : Node) (loc : Loc) : PyVal :=
  match loc.getLast? with
  | none => .pynone
  | some i =>
    match getNode doc loc.dropLast with
    | some (.tag _ _ cs) =>
      match findTagIdxFrom (nodeListDrop cs (i + 1)) (i + 1) with
      | some j => .elem (loc.dropLast ++ [j])
      | none => .pynone
    | _ => .pynone

/-- `WebsiteFileWatcher._perform_step`. The `step_methods` dict literal
evaluates `element.find_parent` and `element.find_next_sibling` before
the `try`, so a `None` (or plain-string) current value raises an
`AttributeError` for every method, known or not; only with a real node
does an unknown method key reach the `KeyError` → `ValueError` path. -/
def performStep (doc : Node) (v : PyVal) (step : Step) : Except StepError PyVal :=
  match v with
  | .pynone => .error .nullNodeTraversal
  | .pstr _ => .error .attributeLookup
  | .elem loc =>
    if step.method = "find_text" then
      match getNode doc loc with
      | some (.text _) => .error .typeError
      | some n =>
        match findStringSub step.params.text n loc with
        | some p => .ok (.elem p)
        | none => .ok .pynone
      | none => .error .typeError
    else if step.method = "parent" then
      match loc with
      | [] => .ok .pynone
      | _ :: _ => .ok (.elem loc.dropLast)
    else if step.method = "find_next_sibling" then
      .ok (nextSiblingVal doc loc)
    else if step.method = "get_attribute" then
      match getNode doc loc with
      | some (.tag _ attrs _) =>
        match attrsLookup attrs step.params.name with
        | some a => .ok (.pstr a)
        | none => .ok .pynone
      | _ => .error .attributeLookup
    else .error (.invalidStepMethod step.method)

/-- Rendered form of one attribute list. -/
def renderAttrs : List (String × String) → String
  | [] => ""
  | (k, v) :: rest => " " ++ k ++ "=\"" ++ v ++ "\"" ++ renderAttrs rest

mutual
/-- `str(tag)`: serialize a node back to markup (text renders as-is). -/
def renderNode : Node → String
  | .text s => s
  | .tag nm attrs cs =>
    "<" ++ nm ++ renderAttrs attrs ++ ">" ++ renderChildren cs ++ "</" ++ nm ++ ">"

/-- Serialize a sibling list. -/
def renderChildren : NodeList → String
  | .nil => ""
  | .cons c cs => renderNode c ++ renderChildren cs
end

/-- `str(soup)` applied to the running value: nodes serialize to markup,
plain strings pass through, and Python `None` renders as `"None"`. -/
def pyStr (doc : Node) : PyVal → String
  | .pynone => "None"
  | .pstr s => s
  | .elem loc =>
    match getNode doc loc with
    | some n => renderNode n
    | none => "None"

/-- The `for step in config.steps` loop: fold the steps through
`_perform_step`, an exception aborting the rest of the pipeline. -/
def runSteps (doc : Node) : PyVal → List Step → Except StepError PyVal
  | v, [] => .ok v
  | v, s :: rest =>
    match performStep doc v s with
    | .ok v2 => runSteps doc v2 rest
    | .error e => .error e

/-- `WebsiteFileWatcher._scrape_website_for_file_url`, with the fetched
and parsed document supplied as input (the HTTP fetch is external).
The initial value is the document root and the final value goes through
`str(...)`. -/
def scrapeWebsiteForFileUrl (doc : Node) (config : Config) : Except StepError String :=
  match runSteps doc (.elem []) config.steps with
  | .ok v => .ok (pyStr doc v)
  | .error e => .error e

/-- The watcher's `self.files` dict: an insertion-ordered association
list from target name to last extracted string. -/
abbrev Files := List (String × String)

/-- `self.files.get(name)` (`None` when absent). -/
def filesGet : Files → String → Option String
  | [], _ => none
  | (k, v) :: rest, n => if k = n then some v else filesGet rest n

/-- `self.files[name] = value`: overwrite in place or append. -/
def filesInsert : Files → String → String → Files
  | [], n, v => [(n, v)]
  | (k, w) :: rest, n, v =>
    if k = n then (k, v) :: rest else (k, w) :: filesInsert rest n v

/-- One Telegram `sendDocument` call, as data. -/
structure Notification where
  bot_token : String
  chat_id : String
  document : String
  deriving DecidableEq, Repr

/-- `WebsiteFileWatcher._send_file_to_telegram`: reads
`self.files[config.name]` (so `none` is the `KeyError` case) and builds
the request; `status` is the transport's HTTP response code, which only
selects the log line. Returns the dispatched notification and the log. -/
def sendFileToTelegram (files : Files) (config : Config) (status : Nat) :
    Option (Notification × List String) :=
  (filesGet files config.name).map fun url =>
    ({ bot_token := config.bot_token, chat_id := config.chat_id, document := url },
      if status = 200 then ["New file sent to Telegram"]
      else ["Error sending file to Telegram"])

/-- `WebsiteFileWatcher._check_and_update_files`: if the cached value
differs from the freshly extracted `element`, notify (only when the name
was already cached — the send happens before the cache write, reading
the old cached value) and then write `element` into the cache. Returns
the new cache, the dispatched notifications and the printed log. -/
def checkAndUpdateFiles (status : Nat) (files : Files) (config : Config)
    (element : String) : Files × List Notification × List String :=
  if filesGet files config.name ≠ some element then
    let sent : List Notification × List String :=
      if (filesGet files config.name).isSome then
        match sendFileToTelegram files config status with
        | some (n, log) => ([n], "Changes detected" :: log)
        | none => ([], ["Changes detected"])
      else ([], [])
    (filesInsert files config.name element, sent.1, sent.2)
  else
    (files, [], ["No change in file detected"])

/-- `WebsiteFileWatcher.scrape_websites`: process the configs in order,
fetching each page (`fetch` maps a website URL to its parsed document),
extracting, printing the URL and running the change check. There is no
exception handler, so a step failure stops the loop: the cache keeps
whatever was written so far and the remaining configs are not visited.
The `Option StepError` component is the escaped exception, if any. -/
def scrapeWebsites (fetch : String → Node) (status : Nat) :
    List Config → Files → Files × List Notification × List String × Option StepError
  | [], files => (files, [], [], none)
  | c :: rest, files =>
    match scrapeWebsiteForFileUrl (fetch c.website) c with
    | .error e => (files, [], [], some e)
    | .ok url =>
      let step1 := checkAndUpdateFiles status files c url
      let step2 := scrapeWebsites fetch status rest step1.1
      (step2.1, step1.2.1 ++ step2.2.1,
        ("File URL: " ++ url) :: (step1.2.2 ++ step2.2.2.1), step2.2.2.2)

/-- The `channel_post` object inside a Telegram update: an optional
`text` field and an optional attached document's `file_name`. -/
structure ChannelPost where
  text : Option String
  document : Option String
  deriving DecidableEq, Repr

/-- One entry of the `getUpdates` `result` array: the `channel_post`
key may be absent. -/
structure TelegramUpdate where
  channel_post : Option ChannelPost
  deriving DecidableEq, Repr

/-- Python's `a or b` on an optional string: `None` and `""` are falsy. -/
def pyOr (a : Option String) (b : String) : String :=
  match a with
  | some s => if s = "" then b else s
  | none => b

/-- `WebsiteFileWatcher.read_last_message_from_telegram`, with the HTTP
response supplied as input: `.error status` is a non-200 response (the
code logs and returns `""`), `.ok updates` is the parsed `result` array.
An empty array raises `IndexError` at `[-1]`, caught and turned into
`""`; otherwise the last update's `channel_post` yields its text or,
when that is missing or falsy, the attached document's file name. -/
def readLastMessageFromTelegram : Except Nat (List TelegramUpdate) → String
  | .error _ => ""
  | .ok updates =>
    match updates.getLast? with
    | none => ""
    | some u =>
      let cp := u.channel_post.getD { text := none, document := none }
      pyOr cp.text (cp.document.getD "")

/-- `value.split("/")[-1]`: split on every slash and keep the last
piece (the empty string when the value ends in a slash or is empty). -/
def splitSlashAux : List Char → List Char → List String
  | [], acc => [String.mk acc.reverse]
  | c :: rest, acc =>
    if c = '/' then String.mk acc.reverse :: splitSlashAux rest []
    else splitSlashAux rest (c :: acc)

/-- The file name implied by a cached value: the substring after the
last `/`. -/
def lastPathComponent (s : String) : String :=
  (splitSlashAux s.data []).getLastD ""

/-- `WebsiteFileWatcher.check_for_file_changes` (the restart
reconciler): for each config, read the channel's last message, look the
target up in the cache with the unguarded `self.files[config.name]`
(`.error name` is the escaped `KeyError`), and when the message differs
from the cached value's file name, send the cached value. `channel`
maps a config to its `getUpdates` response; `status` is the send
transport's response code (it only affects the printed log, dropped
here). Returns the dispatched notifications. -/
def checkForFileChanges (channel : Config → Except Nat (List TelegramUpdate))
    (status : Nat) : List Config → Files → Except String (List Notification)
  | [], _ => .ok []
  | c :: rest, files =>
    let last_msg := readLastMessageFromTelegram (channel c)
    match filesGet files c.name with
    | none => .error c.name
    | some cached =>
      if last_msg ≠ lastPathComponent cached then
        match sendFileToTelegram files c status with
        | some (n, _) =>
          match checkForFileChanges channel status rest files with
          | .ok ns => .ok (n :: ns)
          | .error e => .error e
        | none => .error c.name
      else
        checkForFileChanges channel status rest files

/-! ### Concrete fixtures used by counterexamples and witnesses -/

/-- A document whose `"Download"` text sits in the first subtree while a
second subtree holds unrelated text. -/
def docC6 : Node :=
  .tag "html" [] (nodeListOf
    [.tag "div" [] (nodeListOf [.text "Download"]),
     .tag "p" [] (nodeListOf [.text "other"])])

/-- The `locate-by-text("Download")` step. -/
def stepDl : Step := { method := "find_text", params := { text := "Download" } }

/-- An empty document. -/
def docPlain : Node := .tag "html" [] .nil

/-- An `<a>` tag with no attributes at all. -/
def docA : Node := .tag "a" [] .nil

/-- A minimal target configuration with no steps. -/
def cfgT : Config :=
  { name := "t", website := "http://w", steps := [], bot_token := "bot",
    read_bot_token := "rbot", chat_id := "chat", schedule_interval := "1" }

/-- A target whose single step reads the `href` attribute. -/
def cfgHref : Config :=
  { name := "h", website := "http://w",
    steps := [{ method := "get_attribute", params := { name := "href" } }],
    bot_token := "b", read_bot_token := "rb", chat_id := "c", schedule_interval := "1" }

/-- A target whose pipeline searches for text that is absent and then
asks for the parent of the resulting `None`. -/
def cfgBad : Config :=
  { name := "bad", website := "http://w",
    steps := [stepDl, { method := "parent", params := {} }],
    bot_token := "b", read_bot_token := "rb", chat_id := "c", schedule_interval := "1" }

/-- A harmless target with an empty step list. -/
def cfgGood : Config :=
  { name := "g", website := "http://w", steps := [], bot_token := "b",
    read_bot_token := "rb", chat_id := "c", schedule_interval := "1" }

/-- A target whose single step uses a method outside the closed set. -/
def cfgU : Config :=
  { name := "u", website := "http://w",
    steps := [{ method := "unsupported-xyz", params := {} }],
    bot_token := "b", read_bot_token := "rb", chat_id := "c", schedule_interval := "1" }

/-! ### Helper lemmas -/

/-- Writing a key and reading it back yields the written value. -/
theorem filesGet_filesInsert_self (files : Files) (k v : String) :
    filesGet (filesInsert files k v) k = some v := by
  induction files with
  | nil => simp [filesInsert, filesGet]
  | cons kv rest ih =>
    obtain ⟨k0, v0⟩ := kv
    by_cases hk : k0 = k
    · simp [filesInsert, filesGet, hk]
    · simp [filesInsert, filesGet, hk, ih]

/-- Paths compose: following `a ++ b` is following `a`, then `b`. -/
theorem getNode_append (a : Loc) :
    ∀ (n : Node) (b : Loc),
      getNode n (a ++ b) = (getNode n a).bind (fun m => getNode m b) := by
  induction a with
  | nil => intro n b; simp [getNode]
  | cons i a ih =>
    intro n b
    cases n with
    | text s => simp [getNode]
    | tag nm ats cs =>
      cases hget : nodeListGet cs i with
      | none => simp [getNode, hget]
      | some c => simp [getNode, hget, ih]

mutual
/-- Anything `element.find(string=t)` returns lies inside the subtree it
was asked to search: the returned path extends the base path, and the
node there is a text node equal to `t`. -/
theorem findStringSub_inSubtree (t : String) :
    ∀ (n : Node) (base p : Loc), findStringSub t n base = some p →
      ∃ q, p = base ++ q ∧ getNode n q = some (.text t)
  | .text s, base, p, h => by
    rw [findStringSub] at h
    by_cases hs : s = t
    · rw [if_pos hs] at h
      cases h
      exact ⟨[], by simp, by simp [getNode, hs]⟩
    · rw [if_neg hs] at h
      cases h
  | .tag nm ats cs, base, p, h => by
    rw [findStringSub] at h
    obtain ⟨j, q, _, hp, hg⟩ := findStringChildren_inSubtree t cs base 0 p h
    refine ⟨j :: q, hp, ?_⟩
    rw [Nat.sub_zero] at hg
    cases hget : nodeListGet cs j with
    | none => rw [hget] at hg; simp at hg
    | some c =>
      rw [hget] at hg
      simp at hg
      simpa [getNode, hget] using hg

/-- Child-list counterpart of `findStringSub_inSubtree`, carrying the
index offset of the first child being scanned. -/
theorem findStringChildren_inSubtree (t : String) :
    ∀ (cs : NodeList) (base : Loc) (i : Nat) (p : Loc),
      findStringChildren t cs base i = some p →
      ∃ j q, i ≤ j ∧ p = base ++ j :: q ∧
        (nodeListGet cs (j - i)).bind (fun c => getNode c q) = some (.text t)
  | .nil, base, i, p, h => by
    rw [findStringChildren] at h
    cases h
  | .cons c cs, base, i, p, h => by
    rw [findStringChildren] at h
    cases hf : findStringSub t c (base ++ [i]) with
    | some p2 =>
      rw [hf] at h
      obtain ⟨q, hq, hgq⟩ := findStringSub_inSubtree t c (base ++ [i]) p2 hf
      have hpe : p = p2 := by injection h with h2; exact h2.symm
      refine ⟨i, q, le_refl i, by rw [hpe, hq]; simp, ?_⟩
      simp [nodeListGet, hgq]
    | none =>
      rw [hf] at h
      obtain ⟨j, q, hij, hp, hg⟩ := findStringChildren_inSubtree t cs base (i + 1) p h
      refine ⟨j, q, by omega, hp, ?_⟩
      have hji : j - i = (j - (i + 1)) + 1 := by omega
      rw [hji]
      simpa [nodeListGet] using hg
end

/-- C1: on a detected change from cached "A" to extracted "B", exactly one
notification is dispatched and the cache becomes "B" — but the dispatched
document is the OLD value "A": `_send_file_to_telegram` reads
`self.files[config.name]` before the `self.files[config.name] = element`
write. Evaluation of the code at the failing input. -/
theorem checkAndUpdateFiles_dispatches_stale_value :
    checkAndUpdateFiles 200 [("t", "A")] cfgT "B" =
      ([("t", "B")],
       [{ bot_token := "bot", chat_id := "chat", document := "A" }],
       ["Changes detected", "New file sent to Telegram"]) := rfl

/-- C2: when the target's name is absent from the cache, the change
detector stores the freshly extracted value and dispatches no
notification, whatever the value is. -/
theorem firstObservation_stores_and_never_notifies (status : Nat) (files : Files)
    (config : Config) (element : String)
    (h : filesGet files config.name = none) :
    checkAndUpdateFiles status files config element =
      (filesInsert files config.name element, [], []) := by
  unfold checkAndUpdateFiles
  rw [h]
  simp

/-- C2 witness: concrete first observation. -/
theorem firstObservation_witness :
    filesGet [] cfgT.name = none ∧
    checkAndUpdateFiles 200 [] cfgT "B" = ([("t", "B")], [], []) :=
  ⟨rfl, firstObservation_stores_and_never_notifies 200 [] cfgT "B" rfl⟩

/-- C8: a second change-detection pass with the same extracted value
dispatches nothing and leaves the cache exactly as the first pass left
it, whatever the first pass did. -/
theorem second_pass_same_value_is_silent (status status2 : Nat) (files : Files)
    (c : Config) (v : String) :
    checkAndUpdateFiles status2 (checkAndUpdateFiles status files c v).1 c v =
      ((checkAndUpdateFiles status files c v).1, [],
        ["No change in file detected"]) := by
  have h : filesGet (checkAndUpdateFiles status files c v).1 c.name = some v := by
    unfold checkAndUpdateFiles
    by_cases hc : filesGet files c.name = some v
    · simp [hc]
    · simp [hc, filesGet_filesInsert_self]
  generalize (checkAndUpdateFiles status files c v).1 = f1 at h ⊢
  unfold checkAndUpdateFiles
  rw [h]
  simp

/-- C9: on a detected change the cache write and the single dispatch are
the same for every transport outcome `status`; only the printed log
depends on it. No retry happens: the notification list has exactly one
element. -/
theorem cache_update_independent_of_dispatch_outcome (status : Nat) (files : Files)
    (c : Config) (a b : String)
    (hc : filesGet files c.name = some a) (hne : a ≠ b) :
    checkAndUpdateFiles status files c b =
      (filesInsert files c.name b,
       [{ bot_token := c.bot_token, chat_id := c.chat_id, document := a }],
       "Changes detected" ::
         (if status = 200 then ["New file sent to Telegram"]
          else ["Error sending file to Telegram"])) := by
  unfold checkAndUpdateFiles sendFileToTelegram
  rw [hc]
  simp [hne]

/-- C9 witness: the cache update and single dispatch at a failing
transport (status 500) and at a succeeding one (status 200). -/
theorem cache_update_witness :
    checkAndUpdateFiles 500 [("t", "A")] cfgT "B" =
      ([("t", "B")],
       [{ bot_token := "bot", chat_id := "chat", document := "A" }],
       ["Changes detected", "Error sending file to Telegram"]) ∧
    (checkAndUpdateFiles 500 [("t", "A")] cfgT "B").1 =
      (checkAndUpdateFiles 200 [("t", "A")] cfgT "B").1 := by
  constructor
  · have h := cache_update_independent_of_dispatch_outcome 500 [("t", "A")] cfgT "A" "B"
      rfl (by decide)
    simpa using h
  · rfl

/-- C3 counterexample: an out-of-set method applied to the null node does
NOT fail with `InvalidStepMethod` — the eager `element.find_parent`
attribute access in the `step_methods` dict raises first, so the failure
is the null-traversal `AttributeError`. -/
theorem invalid_method_on_null_node_cex :
    performStep docPlain .pynone { method := "unsupported-xyz", params := {} } =
      .error .nullNodeTraversal ∧
    StepError.nullNodeTraversal ≠ .invalidStepMethod "unsupported-xyz" :=
  ⟨rfl, by decide⟩

/-- C3 amended: for every current value that is a real document node, an
out-of-set method deterministically fails with `InvalidStepMethod`; and a
target whose pipeline raises produces no notification and no cache
mutation for that target (a one-target cycle returns the cache untouched
and an empty dispatch list). On a null current node the null-traversal
failure pre-empts the method check. -/
theorem invalid_method_fails_and_mutates_nothing :
    (∀ (doc : Node) (loc : Loc) (p : StepParams) (m : String),
        m ∉ ["find_text", "parent", "find_next_sibling", "get_attribute"] →
        performStep doc (.elem loc) { method := m, params := p } =
          .error (.invalidStepMethod m)) ∧
    (∀ (fetch : String → Node) (status : Nat) (c : Config) (files : Files)
        (e : StepError),
        scrapeWebsiteForFileUrl (fetch c.website) c = .error e →
        scrapeWebsites fetch status [c] files = (files, [], [], some e)) := by
  constructor
  · intro doc loc p m hm
    simp [List.mem_cons] at hm
    obtain ⟨h1, h2, h3, h4⟩ := hm
    simp [performStep, h1, h2, h3, h4]
  · intro fetch status c files e h
    simp [scrapeWebsites, h]

/-- C3 witness: the amended theorem at `"unsupported-xyz"` on a concrete
node and at a one-target cycle whose pipeline uses that method. -/
theorem invalid_method_witness :
    performStep docPlain (.elem []) { method := "unsupported-xyz", params := {} } =
      .error (.invalidStepMethod "unsupported-xyz") ∧
    scrapeWebsites (fun _ => docPlain) 200 [cfgU] [("o", "old")] =
      ([("o", "old")], [], [], some (.invalidStepMethod "unsupported-xyz")) :=
  ⟨invalid_method_fails_and_mutates_nothing.1 docPlain [] {} "unsupported-xyz" (by decide),
   invalid_method_fails_and_mutates_nothing.2 (fun _ => docPlain) 200 cfgU
     [("o", "old")] (.invalidStepMethod "unsupported-xyz") rfl⟩

/-- C4 counterexample: a null traversal in the first target aborts the
whole cycle — with `[cfgBad, cfgGood]` the run stops at `cfgBad` and
`cfgGood` is never processed (its name never enters the cache), although
alone it would be. -/
theorem null_traversal_stops_other_targets_cex :
    scrapeWebsites (fun _ => docPlain) 200 [cfgBad, cfgGood] [] =
      ([], [], [], some .nullNodeTraversal) ∧
    scrapeWebsites (fun _ => docPlain) 200 [cfgGood] [] =
      ([("g", "<html></html>")], [], ["File URL: <html></html>"], none) :=
  ⟨rfl, rfl⟩

/-- C4 amended: a structural step on the null node fails with the
null-traversal error and aborts the whole remaining pipeline for the
target; the escaped exception then also aborts the remainder of the
cycle — every later target is left unprocessed, with no notification and
no cache write at all. -/
theorem null_traversal_aborts_target_and_cycle :
    (∀ (doc : Node) (s : Step) (rest : List Step),
        s.method ∈ ["find_text", "parent", "find_next_sibling"] →
        runSteps doc .pynone (s :: rest) = .error .nullNodeTraversal) ∧
    (∀ (fetch : String → Node) (status : Nat) (c : Config) (cs : List Config)
        (files : Files) (e : StepError),
        scrapeWebsiteForFileUrl (fetch c.website) c = .error e →
        scrapeWebsites fetch status (c :: cs) files = (files, [], [], some e)) := by
  constructor
  · intro doc s rest _
    simp [runSteps, performStep]
  · intro fetch status c cs files e h
    simp [scrapeWebsites, h]

/-- C4 witness: the amended theorem at the `parent`-after-failed-search
pipeline of `cfgBad`, with a second target pending. -/
theorem null_traversal_witness :
    runSteps docPlain .pynone [{ method := "parent", params := {} }] =
      .error .nullNodeTraversal ∧
    scrapeWebsites (fun _ => docPlain) 200 [cfgBad, cfgGood] [] =
      ([], [], [], some .nullNodeTraversal) :=
  ⟨null_traversal_aborts_target_and_cycle.1 docPlain
      { method := "parent", params := {} } [] (by decide),
   null_traversal_aborts_target_and_cycle.2 (fun _ => docPlain) 200 cfgBad
      [cfgGood] [] .nullNodeTraversal rfl⟩

/-- C5 counterexample: reading a missing attribute is indeed not a
failure, but the pipeline's final value is the string `"None"`
(`str(None)`), not the empty string. -/
theorem absent_attribute_renders_None_cex :
    scrapeWebsiteForFileUrl docA cfgHref = .ok "None" ∧ ("None" : String) ≠ "" :=
  ⟨rfl, by decide⟩

/-- C5 amended: `get_attribute` on a tag lacking the attribute returns
Python `None` rather than a failure, and a pipeline whose final value is
that `None` renders it as the string `"None"` (not the empty string). -/
theorem absent_attribute_is_not_a_failure (doc : Node) (loc : Loc) (tg : String)
    (ats : List (String × String)) (cs : NodeList) (t nm : String)
    (hn : getNode doc loc = some (.tag tg ats cs))
    (ha : attrsLookup ats nm = none) :
    performStep doc (.elem loc) { method := "get_attribute", params := { text := t, name := nm } } =
      .ok .pynone ∧
    pyStr doc .pynone = "None" := by
  refine ⟨?_, rfl⟩
  simp [performStep, hn, ha]

/-- C5 witness: the `href`-less `<a>` tag. -/
theorem absent_attribute_witness :
    performStep docA (.elem []) { method := "get_attribute", params := { text := "", name := "href" } } =
      .ok .pynone ∧
    pyStr docA .pynone = "None" :=
  absent_attribute_is_not_a_failure docA [] "a" [] .nil "" "href" rfl rfl

/-- C6 counterexample: `find_text` is NOT document-wide. In `docC6` the
text `"Download"` exists (at path `[0, 0]`), and searching from the root
finds it, but the same step run with the current node at path `[1]`
(the `<p>` subtree) returns `None`: the search is scoped to the current
node's subtree, so it does depend on which subtree the node occupies. -/
theorem locate_by_text_depends_on_current_node_cex :
    performStep docC6 (.elem [1]) stepDl = .ok .pynone ∧
    performStep docC6 (.elem []) stepDl = .ok (.elem [0, 0]) ∧
    getNode docC6 [0, 0] = some (.text "Download") ∧
    (Except.ok PyVal.pynone : Except StepError PyVal) ≠ .ok (.elem [0, 0]) :=
  ⟨rfl, rfl, rfl, by simp⟩

/-- C6 amended: `find_text` searches only the current node's subtree —
any node it returns lies below the current node (its path extends the
current path) and holds exactly the requested text; the whole-document
search the spec describes happens only when the current node is the
document root. -/
theorem locate_by_text_scoped_to_current_subtree (doc : Node) (loc p : Loc)
    (t nm : String)
    (h : performStep doc (.elem loc) { method := "find_text", params := { text := t, name := nm } } =
      .ok (.elem p)) :
    (∃ q, p = loc ++ q) ∧ getNode doc p = some (.text t) := by
  cases hg : getNode doc loc with
  | none => simp [performStep, hg] at h
  | some n =>
    cases n with
    | text s => simp [performStep, hg] at h
    | tag nm2 ats cs =>
      cases hf : findStringSub t (.tag nm2 ats cs) loc with
      | none => simp [performStep, hg, hf] at h
      | some p2 =>
        simp [performStep, hg, hf] at h
        obtain ⟨q, hq, hgq⟩ := findStringSub_inSubtree t (.tag nm2 ats cs) loc p2 hf
        subst h
        refine ⟨⟨q, hq⟩, ?_⟩
        rw [hq, getNode_append, hg]
        simpa using hgq

/-- C6 witness: the scoping theorem applied at the document root of
`docC6`, where the search finds `"Download"` at `[0, 0]`. -/
theorem locate_by_text_scoped_witness :
    (∃ q, ([0, 0] : Loc) = [] ++ q) ∧ getNode docC6 [0, 0] = some (.text "Download") :=
  locate_by_text_scoped_to_current_subtree docC6 [] [0, 0] "Download" "" rfl

/-- C7 counterexample: when the channel read fails (non-200) or the
channel has no messages, `read_last_message_from_telegram` returns `""`,
and `"" != file_name` then FORCES a dispatch whenever the cached file
name is non-empty — the reconciler does not take "no action". -/
theorem reconciler_notifies_on_channel_failure_cex :
    checkForFileChanges (fun _ => .error 404) 200 [cfgT] [("t", "http://x/f1.zip")] =
      .ok [{ bot_token := "bot", chat_id := "chat", document := "http://x/f1.zip" }] ∧
    checkForFileChanges (fun _ => .ok []) 200 [cfgT] [("t", "http://x/f1.zip")] =
      .ok [{ bot_token := "bot", chat_id := "chat", document := "http://x/f1.zip" }] :=
  ⟨rfl, rfl⟩

/-- C7 amended: when the channel read yields `""` (read failure or no
messages), the reconciler compares `""` against the cached value's file
name and dispatches the cached value precisely when that file name is
non-empty; it takes no action only when the file name is empty too. -/
theorem reconciler_channel_failure_behaviour
    (channel : Config → Except Nat (List TelegramUpdate)) (status : Nat)
    (c : Config) (files : Files) (v : String)
    (hread : readLastMessageFromTelegram (channel c) = "")
    (hc : filesGet files c.name = some v) :
    checkForFileChanges channel status [c] files =
      .ok (if lastPathComponent v = "" then []
           else [{ bot_token := c.bot_token, chat_id := c.chat_id, document := v }]) := by
  rw [checkForFileChanges]
  rw [hread, hc]
  by_cases hl : lastPathComponent v = ""
  · simp [hl, checkForFileChanges]
  · have h2 : ¬("" = lastPathComponent v) := fun hh => hl hh.symm
    simp [hl, h2, sendFileToTelegram, hc, checkForFileChanges]

/-- C7 witness: a failed channel read over a cached zip URL dispatches
exactly one notification carrying the cached value. -/
theorem reconciler_channel_failure_witness :
    checkForFileChanges (fun _ => .error 404) 200 [cfgT] [("t", "http://x/f1.zip")] =
      .ok (if lastPathComponent "http://x/f1.zip" = "" then []
           else [{ bot_token := cfgT.bot_token, chat_id := cfgT.chat_id,
                   document := "http://x/f1.zip" }]) :=
  reconciler_channel_failure_behaviour (fun _ => .error 404) 200 cfgT
    [("t", "http://x/f1.zip")] "http://x/f1.zip" rfl rfl

/-- C10: the reconciliation pass succeeds exactly when every configured
target's name is in the cache; any absent name makes the unguarded
`self.files[config.name]` lookup raise, failing the pass. -/
theorem reconciliation_defined_iff_all_names_cached
    (channel : Config → Except Nat (List TelegramUpdate)) (status : Nat)
    (configs : List Config) (files : Files) :
    (∃ c ∈ configs, filesGet files c.name = none) ↔
      ∃ e, checkForFileChanges channel status configs files = .error e := by
  induction configs with
  | nil => simp [checkForFileChanges]
  | cons c rest ih =>
    rw [checkForFileChanges]
    cases hc : filesGet files c.name with
    | none => simp [hc]
    | some cached =>
      have hmem : (∃ x ∈ c :: rest, filesGet files x.name = none) ↔
          (∃ x ∈ rest, filesGet files x.name = none) := by
        simp only [List.mem_cons]
        constructor
        · rintro ⟨x, hx | hx, hnone⟩
          · subst hx; rw [hc] at hnone; cases hnone
          · exact ⟨x, hx, hnone⟩
        · rintro ⟨x, hx, hnone⟩
          exact ⟨x, Or.inr hx, hnone⟩
      rw [hmem, ih]
      by_cases hne : readLastMessageFromTelegram (channel c) ≠ lastPathComponent cached
      · cases hrec : checkForFileChanges channel status rest files with
        | ok ns => simp [hne, hrec, sendFileToTelegram, hc]
        | error e => simp [hne, hrec, sendFileToTelegram, hc]
      · simp [hne]
